import Mathlib

/-!
Verification of the Urban Heat Island pipeline script
(src/urban_heat_island.py) against its specification.

The script issues a fixed sequence of Earth Engine calls.  The per-pixel
numeric semantics of the image operations it requests (the `.where`
classification chain, `updateMask`, the thermal scaling expression, the UHI
index expression, `clip`) are embedded over `ℚ`; the script's local control
flow (authentication failure, the visualization try/except guard, the export
submission, the configuration dataflow of `main`) is embedded as explicit
functions producing traces of prints, executed steps and issued calls.
-/

namespace UrbanHeatIsland

/-- Pixel coordinates of a raster. -/
abbrev Pix : Type := ℤ × ℤ

/-- Per-pixel semantics of `img.where(test, value)`: the current pixel value
is replaced by `value` where the test holds, kept otherwise. -/
def eeWhere (cur : ℚ) (test : Prop) [Decidable test] (value : ℚ) : ℚ :=
  if test then value else cur

/-- Per-pixel value of the `.where` chain of `classify_uhi_intensity`
(src lines 122-127): `ee.Image.constant(0)` rewritten by the five bands, in
the order the source applies them. -/
def uhiClassValue (x : ℚ) : ℚ :=
  eeWhere (eeWhere (eeWhere (eeWhere (eeWhere 0
    (0 ≤ x ∧ x < 0.005) 1)
    (0.005 ≤ x ∧ x < 0.010) 2)
    (0.010 ≤ x ∧ x < 0.015) 3)
    (0.015 ≤ x ∧ x < 0.020) 4)
    (0.020 ≤ x) 5

/-- Per-pixel semantics of `img.updateMask(mask)`: the value is kept where
the mask is non-zero and masked out (no value) where the mask is zero. -/
def updateMask (img : Pix → ℚ) (mask : Pix → ℚ) : Pix → Option ℚ :=
  fun p => if mask p = 0 then none else some (img p)

/-- `classify_uhi_intensity(uhiIndex, dynamicUrban)` (src lines 118-137):
the constant-0 image rewritten by the five `.where` bands on the UHI index,
then masked to urban pixels by `.updateMask(dynamicUrban)`. -/
def classify_uhi_intensity (uhiIndex dynamicUrban : Pix → ℚ) : Pix → Option ℚ :=
  updateMask (fun p => uhiClassValue (uhiIndex p)) dynamicUrban

/-- The test of the k-th `.where` band of `classify_uhi_intensity`, exactly
as the source writes it (`gte`/`lt` pairs on the index value, the fifth band
has no upper bound); `False` for a k that is not one of the five classes. -/
def bandCond (k : ℕ) (x : ℚ) : Prop :=
  if k = 1 then 0 ≤ x ∧ x < 0.005
  else if k = 2 then 0.005 ≤ x ∧ x < 0.010
  else if k = 3 then 0.010 ≤ x ∧ x < 0.015
  else if k = 4 then 0.015 ≤ x ∧ x < 0.020
  else if k = 5 then 0.020 ≤ x
  else False

/-- An Earth Engine thermal image as `apply_thermal_scaling` sees it: a band
of per-pixel values plus the scene's numeric metadata properties. -/
structure EEThermalImage where
  pix : Pix → ℚ
  props : String → ℚ

/-- `apply_thermal_scaling(image)` (src lines 72-76): read the per-scene
scale and offset from the scene's metadata, compute
`image.multiply(scaleFactor).add(offsetFactor)` per pixel, and copy all
properties over (`copyProperties(image, image.propertyNames())`). -/
def apply_thermal_scaling (image : EEThermalImage) : EEThermalImage :=
  let scaleFactor := image.props "TEMPERATURE_MULT_BAND_ST_B10"
  let offsetFactor := image.props "TEMPERATURE_ADD_BAND_ST_B10"
  ⟨fun p => image.pix p * scaleFactor + offsetFactor, image.props⟩

/-- A single-band Earth Engine image with its band name. -/
structure EEBand where
  band : String
  pix : Pix → ℚ

/-- `calculate_uhi_index(medianThermal, meanLST)` (src lines 103-116): the
expression `(TIR - MEAN) / MEAN` with `TIR` the median thermal image and
`MEAN` the scalar regional mean, renamed to the band `UHI_Index`. -/
def calculate_uhi_index (medianThermal : Pix → ℚ) (meanLST : ℚ) : EEBand :=
  ⟨"UHI_Index", fun p => (medianThermal p - meanLST) / meanLST⟩

/-- Per-pixel semantics of `img.clip(region)`: values are kept inside the
region and masked out (no value) outside it. -/
def eeClip (img : Pix → Option ℚ) (region : Pix → Bool) : Pix → Option ℚ :=
  fun p => if region p then img p else none

/-- Closed form of the `.where` chain: reading the nested rewrites from the
last one applied (class 5) back to the first (class 1). -/
lemma uhiClassValue_eq (x : ℚ) : uhiClassValue x =
    if 0.020 ≤ x then 5
    else if 0.015 ≤ x ∧ x < 0.020 then 4
    else if 0.010 ≤ x ∧ x < 0.015 then 3
    else if 0.005 ≤ x ∧ x < 0.010 then 2
    else if 0 ≤ x ∧ x < 0.005 then 1
    else 0 := rfl

lemma uhiClassValue_band1 (x : ℚ) (h0 : 0 ≤ x) (h : x < 0.005) :
    uhiClassValue x = 1 := by
  rw [uhiClassValue_eq, if_neg (by intro h5; linarith),
    if_neg (fun hc => by linarith [hc.1]), if_neg (fun hc => by linarith [hc.1]),
    if_neg (fun hc => by linarith [hc.1]), if_pos ⟨h0, h⟩]

lemma uhiClassValue_band2 (x : ℚ) (h0 : 0.005 ≤ x) (h : x < 0.010) :
    uhiClassValue x = 2 := by
  rw [uhiClassValue_eq, if_neg (by intro h5; linarith),
    if_neg (fun hc => by linarith [hc.1]), if_neg (fun hc => by linarith [hc.1]),
    if_pos ⟨h0, h⟩]

lemma uhiClassValue_band3 (x : ℚ) (h0 : 0.010 ≤ x) (h : x < 0.015) :
    uhiClassValue x = 3 := by
  rw [uhiClassValue_eq, if_neg (by intro h5; linarith),
    if_neg (fun hc => by linarith [hc.1]), if_pos ⟨h0, h⟩]

lemma uhiClassValue_band4 (x : ℚ) (h0 : 0.015 ≤ x) (h : x < 0.020) :
    uhiClassValue x = 4 := by
  rw [uhiClassValue_eq, if_neg (by intro h5; linarith), if_pos ⟨h0, h⟩]

lemma uhiClassValue_band5 (x : ℚ) (h0 : 0.020 ≤ x) :
    uhiClassValue x = 5 := by
  rw [uhiClassValue_eq, if_pos h0]

lemma uhiClassValue_neg (x : ℚ) (h : x < 0) : uhiClassValue x = 0 := by
  rw [uhiClassValue_eq, if_neg (by intro h5; linarith),
    if_neg (fun hc => by linarith [hc.1]), if_neg (fun hc => by linarith [hc.1]),
    if_neg (fun hc => by linarith [hc.1]), if_neg (fun hc => by linarith [hc.1])]

/-- A band's test pins down the band index: `bandCond k x` with the band's
interval constraints forces `k` by the if-chain. -/
lemma bandCond_value (x : ℚ) (k : ℕ) (h : bandCond k x) :
    uhiClassValue x = (k : ℚ) := by
  unfold bandCond at h
  split_ifs at h with h1 h2 h3 h4 h5
  · subst h1; rw [uhiClassValue_band1 x h.1 h.2]; norm_num
  · subst h2; rw [uhiClassValue_band2 x h.1 h.2]; norm_num
  · subst h3; rw [uhiClassValue_band3 x h.1 h.2]; norm_num
  · subst h4; rw [uhiClassValue_band4 x h.1 h.2]; norm_num
  · subst h5; rw [uhiClassValue_band5 x h]; norm_num

lemma bandCond_one (x : ℚ) : bandCond 1 x ↔ (0 ≤ x ∧ x < 0.005) := by
  norm_num [bandCond]

lemma bandCond_two (x : ℚ) : bandCond 2 x ↔ (0.005 ≤ x ∧ x < 0.010) := by
  norm_num [bandCond]

lemma bandCond_three (x : ℚ) : bandCond 3 x ↔ (0.010 ≤ x ∧ x < 0.015) := by
  norm_num [bandCond]

lemma bandCond_four (x : ℚ) : bandCond 4 x ↔ (0.015 ≤ x ∧ x < 0.020) := by
  norm_num [bandCond]

lemma bandCond_five (x : ℚ) : bandCond 5 x ↔ 0.020 ≤ x := by
  norm_num [bandCond]

/-- C1: the classifier equals the reference piecewise definition.  For every
index value `x ≥ 0` exactly one of the five band tests holds (the bands at
0, 0.005, 0.010, 0.015, 0.020 are contiguous and exhaustive over the
non-negative values, with no gaps or overlaps), and the classifier assigns
the band's class; for every `x < 0` none of the five bands applies and the
pixel keeps the initial constant 0. -/
theorem classify_bands_partition (x : ℚ) :
    (0 ≤ x → ∃! k : ℕ, bandCond k x) ∧
    (∀ k : ℕ, bandCond k x → uhiClassValue x = (k : ℚ)) ∧
    (x < 0 → (∀ k : ℕ, ¬ bandCond k x) ∧ uhiClassValue x = 0) := by
  refine ⟨?_, fun k hk => bandCond_value x k hk, ?_⟩
  · intro h0
    rcases lt_or_le x 0.005 with c1 | c1
    · refine ⟨1, ?_, ?_⟩
      · exact (bandCond_one x).mpr ⟨h0, c1⟩
      · intro y hy
        unfold bandCond at hy
        split_ifs at hy with a b c d e
        · exact a
        · exfalso; linarith [hy.1]
        · exfalso; linarith [hy.1]
        · exfalso; linarith [hy.1]
        · exfalso; linarith
    rcases lt_or_le x 0.010 with c2 | c2
    · refine ⟨2, ?_, ?_⟩
      · exact (bandCond_two x).mpr ⟨c1, c2⟩
      · intro y hy
        unfold bandCond at hy
        split_ifs at hy with a b c d e
        · exfalso; linarith [hy.2]
        · exact b
        · exfalso; linarith [hy.1]
        · exfalso; linarith [hy.1]
        · exfalso; linarith
    rcases lt_or_le x 0.015 with c3 | c3
    · refine ⟨3, ?_, ?_⟩
      · exact (bandCond_three x).mpr ⟨c2, c3⟩
      · intro y hy
        unfold bandCond at hy
        split_ifs at hy with a b c d e
        · exfalso; linarith [hy.2]
        · exfalso; linarith [hy.2]
        · exact c
        · exfalso; linarith [hy.1]
        · exfalso; linarith
    rcases lt_or_le x 0.020 with c4 | c4
    · refine ⟨4, ?_, ?_⟩
      · exact (bandCond_four x).mpr ⟨c3, c4⟩
      · intro y hy
        unfold bandCond at hy
        split_ifs at hy with a b c d e
        · exfalso; linarith [hy.2]
        · exfalso; linarith [hy.2]
        · exfalso; linarith [hy.2]
        · exact d
        · exfalso; linarith
    · refine ⟨5, ?_, ?_⟩
      · exact (bandCond_five x).mpr c4
      · intro y hy
        unfold bandCond at hy
        split_ifs at hy with a b c d e
        · exfalso; linarith [hy.2]
        · exfalso; linarith [hy.2]
        · exfalso; linarith [hy.2]
        · exfalso; linarith [hy.2]
        · exact e
  · intro hneg
    refine ⟨?_, uhiClassValue_neg x hneg⟩
    intro k hk
    unfold bandCond at hk
    split_ifs at hk with a b c d e
    · linarith [hk.1]
    · linarith [hk.1]
    · linarith [hk.1]
    · linarith [hk.1]
    · linarith

/-- C4: the classified output is masked to urban pixels.  Where the urban
mask is zero the output carries no value; where the mask is non-zero the
output carries exactly the band value of the index at that pixel. -/
theorem classify_masked_to_urban (uhiIndex dynamicUrban : Pix → ℚ) (p : Pix) :
    (dynamicUrban p = 0 → classify_uhi_intensity uhiIndex dynamicUrban p = none) ∧
    (dynamicUrban p ≠ 0 →
      classify_uhi_intensity uhiIndex dynamicUrban p
        = some (uhiClassValue (uhiIndex p))) := by
  constructor
  · intro h
    simp [classify_uhi_intensity, updateMask, h]
  · intro h
    simp [classify_uhi_intensity, updateMask, h]

/-- C2: thermal scaling is exactly `value * scale + offset` with the scale
and offset taken from the scene's own metadata, and no other transformation:
the properties are copied over unchanged. -/
theorem thermal_scaling_formula (image : EEThermalImage) (p : Pix) :
    (apply_thermal_scaling image).pix p
      = image.pix p * image.props "TEMPERATURE_MULT_BAND_ST_B10"
        + image.props "TEMPERATURE_ADD_BAND_ST_B10" ∧
    (apply_thermal_scaling image).props = image.props :=
  ⟨rfl, rfl⟩

/-- C3: the index calculator computes, per pixel, the relative deviation
`(TIR - MEAN) / MEAN` of the median temperature from the regional scalar
mean, returned under the band name `UHI_Index`; for a non-zero mean this is
exactly the factor by which the pixel deviates from the mean. -/
theorem uhi_index_formula (medianThermal : Pix → ℚ) (meanLST : ℚ) (p : Pix) :
    (calculate_uhi_index medianThermal meanLST).band = "UHI_Index" ∧
    (calculate_uhi_index medianThermal meanLST).pix p
      = (medianThermal p - meanLST) / meanLST ∧
    (meanLST ≠ 0 →
      meanLST * (1 + (calculate_uhi_index medianThermal meanLST).pix p)
        = medianThermal p) := by
  refine ⟨rfl, rfl, fun h => ?_⟩
  show meanLST * (1 + (medianThermal p - meanLST) / meanLST) = medianThermal p
  field_simp

/-- Trace of `initialize_earth_engine()` (src lines 12-22): `raised = none`
models `ee.Initialize()` succeeding, `raised = some e` models it raising the
exception `e`.  The result is the printed lines and the process exit code
the function requests (`exit(1)` on failure, none on success). -/
def initialize_earth_engine (raised : Option String) : List String × Option ℕ :=
  match raised with
  | none => (["Earth Engine initialized successfully"], none)
  | some e =>
      (["Earth Engine initialization failed",
        "Error: " ++ e,
        "Please authenticate with Google Cloud:",
        "Run: earthengine authenticate"], some 1)

/-- Trace of `visualize_interactive(...)` (src lines 162-192): `raised`
models whether the body of the `try` block raises an exception.  The result
is the printed lines and the exception the function lets propagate to its
caller; the bare `except Exception` clause catches everything and prints a
warning, so the second component is `none` in both cases. -/
def visualize_interactive (raised : Option String) : List String × Option String :=
  match raised with
  | none =>
      (["Creating interactive visualization",
        "Interactive map saved: uhi_map.html",
        "Open this file in your browser to view the visualization"], none)
  | some e =>
      (["Creating interactive visualization",
        "Could not create interactive map: " ++ e,
        "(geemap may not be installed. Install with: pip install geemap)"], none)

/-- The pipeline steps `main()` runs, in source order (src lines 194-251). -/
inductive PipelineStep where
  | initEarthEngine
  | loadAdminBoundaries
  | getRoi
  | getUrbanMask
  | loadLandsatThermal
  | computeLst
  | calculateUhiIndex
  | classifyUhiIntensity
  | exportToDrive
  | visualizeInteractive
  | printSummary
deriving DecidableEq

/-- Control flow of `main()` (src lines 194-251): the steps that execute, and
the process exit code.  The driver runs `initialize_earth_engine` first; when
that step requests an exit nothing after it runs.  Otherwise every pipeline
step runs in sequence; the visualization step runs under its own guard, and
only an exception it let propagate (there is none, see
`visualize_interactive`) could stop the summary prints at the end. -/
def main_run (initRaised vizRaised : Option String) :
    List PipelineStep × Option ℕ :=
  match (initialize_earth_engine initRaised).2 with
  | some code => ([PipelineStep.initEarthEngine], some code)
  | none =>
      match (visualize_interactive vizRaised).2 with
      | some _ =>
          ([PipelineStep.initEarthEngine, PipelineStep.loadAdminBoundaries,
            PipelineStep.getRoi, PipelineStep.getUrbanMask,
            PipelineStep.loadLandsatThermal, PipelineStep.computeLst,
            PipelineStep.calculateUhiIndex, PipelineStep.classifyUhiIntensity,
            PipelineStep.exportToDrive, PipelineStep.visualizeInteractive],
           some 1)
      | none =>
          ([PipelineStep.initEarthEngine, PipelineStep.loadAdminBoundaries,
            PipelineStep.getRoi, PipelineStep.getUrbanMask,
            PipelineStep.loadLandsatThermal, PipelineStep.computeLst,
            PipelineStep.calculateUhiIndex, PipelineStep.classifyUhiIntensity,
            PipelineStep.exportToDrive, PipelineStep.visualizeInteractive,
            PipelineStep.printSummary], none)

/-- The remote calls the export step issues, in order; `taskStatus` is the
status-checking call the Earth Engine task API offers and the script never
uses. -/
inductive EECall where
  | exportImageToDrive
  | taskStart
  | taskStatus
deriving DecidableEq

/-- The handle `ee.batch.Export.image.toDrive` returns. -/
structure ExportTask where
  id : String
deriving DecidableEq

/-- The parameters `export_to_drive` passes to
`ee.batch.Export.image.toDrive` (src lines 143-153). -/
structure ExportJobParams where
  image : Pix → Option ℚ
  description : String
  folder : String
  fileNamePrefix : String
  region : Pix → Bool
  scale : ℚ
  crs : String
  maxPixels : ℚ
  fileFormat : String

/-- What `export_to_drive` produces: the submitted job's parameters, the
remote calls issued, the printed lines, and the returned task handle. -/
structure ExportResult where
  job : ExportJobParams
  calls : List EECall
  prints : List String
  task : ExportTask

/-- `export_to_drive(uhiClasses, analysisBoundary, output_folder)` (src
lines 139-160): build the export job over the classified raster clipped to
the analysis boundary, start the task, print the task id twice, and return
the task handle.  `taskId` models the id the service assigns to the task. -/
def export_to_drive (uhiClasses : Pix → Option ℚ)
    (analysisBoundary : Pix → Bool) (taskId : String)
    (output_folder : String := "UrbanHeat") : ExportResult :=
  let job : ExportJobParams :=
    ⟨eeClip uhiClasses analysisBoundary, "UHI_Classes_Landsat8_Export",
      output_folder, "uhi_classes", analysisBoundary, 100, "EPSG:4326",
      10000000000000, "GeoTIFF"⟩
  let task : ExportTask := ⟨taskId⟩
  ⟨job, [EECall.exportImageToDrive, EECall.taskStart],
    ["Exporting to Google Drive: " ++ output_folder,
     "Export task started: " ++ taskId,
     "Check your Google Drive for results",
     "Task ID: " ++ taskId],
    task⟩

/-- The configured central coordinate `[80.2707, 13.0827]` (src line 205),
as the (longitude, latitude) pair the list denotes. -/
def centralCoord : ℚ × ℚ := (80.2707, 13.0827)

/-- The configured start date (src line 206). -/
def startDate : String := "2023-01-01"

/-- The configured end date (src line 207). -/
def endDate : String := "2024-12-31"

/-- The center argument `visualize_interactive` builds for `geemap.Map`
(src line 167): `center=(centralCoord[1], centralCoord[0])`. -/
def geemap_map_center (coord : ℚ × ℚ) : ℚ × ℚ := (coord.2, coord.1)

/-- The configuration values each downstream call of the driver observes. -/
structure ComponentInputs where
  roiCoord : ℚ × ℚ
  urbanMaskStart : String
  urbanMaskEnd : String
  thermalStart : String
  thermalEnd : String
  vizCoord : ℚ × ℚ
  geemapCenter : ℚ × ℚ

/-- The dataflow of the configuration constants through `main()` (src lines
204-239): `get_roi` receives `centralCoord`; `get_urban_mask` and
`load_landsat_thermal` receive `startDate` and `endDate`;
`visualize_interactive` receives `centralCoord` and passes
`geemap.Map` the pair built on src line 167. -/
def main_component_inputs : ComponentInputs :=
  ⟨centralCoord, startDate, endDate, startDate, endDate, centralCoord,
    geemap_map_center centralCoord⟩

/-- The driver's handle flow around the export (src lines 236-239): the
export step receives the classified raster `uhiClasses`, and the
visualization call after it receives the same unaltered `uhiClasses` value;
clipping happens only on the image stored in the export job. -/
def main_handle_flow (uhiClasses : Pix → Option ℚ)
    (analysisBoundary : Pix → Bool) (taskId : String) :
    ExportResult × (Pix → Option ℚ) :=
  (export_to_drive uhiClasses analysisBoundary taskId, uhiClasses)

/-- C5: when initialization of the remote service raises, the script prints
the authentication guidance and requests process exit with status 1, and no
pipeline step after the initialization runs; when initialization succeeds,
execution continues into the pipeline and the process ends normally. -/
theorem init_failure_exits_before_pipeline (e : String)
    (vizRaised : Option String) :
    (initialize_earth_engine (some e)).2 = some 1 ∧
    "Run: earthengine authenticate" ∈ (initialize_earth_engine (some e)).1 ∧
    (main_run (some e) vizRaised).1 = [PipelineStep.initEarthEngine] ∧
    (main_run (some e) vizRaised).2 = some 1 ∧
    PipelineStep.loadAdminBoundaries ∈ (main_run none vizRaised).1 ∧
    (main_run none vizRaised).2 = none := by
  refine ⟨rfl, ?_, rfl, rfl, ?_, ?_⟩
  · simp [initialize_earth_engine]
  · cases vizRaised <;>
      simp [main_run, initialize_earth_engine, visualize_interactive]
  · cases vizRaised <;> rfl

/-- C6: every exception raised during the visualization step is caught
inside that step; a warning naming the exception is printed, nothing
propagates to the driver, and the driver's remaining statements (the summary
prints) still run, with a normal process end. -/
theorem visualization_failure_nonfatal (e : String) :
    (visualize_interactive (some e)).2 = none ∧
    ("Could not create interactive map: " ++ e)
      ∈ (visualize_interactive (some e)).1 ∧
    (main_run none (some e)).1
      = [PipelineStep.initEarthEngine, PipelineStep.loadAdminBoundaries,
         PipelineStep.getRoi, PipelineStep.getUrbanMask,
         PipelineStep.loadLandsatThermal, PipelineStep.computeLst,
         PipelineStep.calculateUhiIndex, PipelineStep.classifyUhiIntensity,
         PipelineStep.exportToDrive, PipelineStep.visualizeInteractive,
         PipelineStep.printSummary] ∧
    PipelineStep.printSummary ∈ (main_run none (some e)).1 ∧
    (main_run none (some e)).2 = none := by
  refine ⟨rfl, ?_, rfl, ?_, rfl⟩
  · simp [visualize_interactive]
  · simp [main_run, initialize_earth_engine, visualize_interactive]

/-- C7: the export step is fire-and-forget: it issues exactly the job
submission and the task start, never the task status query, reports the job
identifier in its prints, and returns the task handle. -/
theorem export_fire_and_forget (uhiClasses : Pix → Option ℚ)
    (analysisBoundary : Pix → Bool) (taskId output_folder : String) :
    (export_to_drive uhiClasses analysisBoundary taskId output_folder).calls
      = [EECall.exportImageToDrive, EECall.taskStart] ∧
    EECall.taskStatus
      ∉ (export_to_drive uhiClasses analysisBoundary taskId
          output_folder).calls ∧
    ("Task ID: " ++ taskId)
      ∈ (export_to_drive uhiClasses analysisBoundary taskId
          output_folder).prints ∧
    (export_to_drive uhiClasses analysisBoundary taskId output_folder).task
      = ⟨taskId⟩ := by
  refine ⟨rfl, ?_, ?_, rfl⟩
  · simp [export_to_drive]
  · simp [export_to_drive]

/-- C8 counterexample: the `geemap.Map` call inside the visualizer receives
the coordinate pair reordered to (latitude, longitude) — the pair
`(13.0827, 80.2707)` — which is not the configured `centralCoord`
`(80.2707, 13.0827)`.  So not every downstream call observes the
configuration values unmodified. -/
theorem geemap_center_reordered_cex :
    main_component_inputs.geemapCenter = (13.0827, 80.2707) ∧
    centralCoord = (80.2707, 13.0827) ∧
    main_component_inputs.geemapCenter ≠ centralCoord := by
  refine ⟨rfl, rfl, fun h => ?_⟩
  have h1 := congrArg Prod.fst h
  norm_num [main_component_inputs, geemap_map_center, centralCoord] at h1

/-- C8 (amended): the driver passes the coordinate pair and the two date
strings unmodified to each pipeline component it calls (`get_roi`,
`get_urban_mask`, `load_landsat_thermal`, `visualize_interactive`); within
the visualizer, the `geemap.Map` center argument is the coordinate pair
reordered to (latitude, longitude). -/
theorem config_passed_to_components :
    main_component_inputs.roiCoord = centralCoord ∧
    main_component_inputs.urbanMaskStart = startDate ∧
    main_component_inputs.urbanMaskEnd = endDate ∧
    main_component_inputs.thermalStart = startDate ∧
    main_component_inputs.thermalEnd = endDate ∧
    main_component_inputs.vizCoord = centralCoord ∧
    main_component_inputs.geemapCenter = (centralCoord.2, centralCoord.1) :=
  ⟨rfl, rfl, rfl, rfl, rfl, rfl, rfl⟩

/-- A concrete classified raster for closed statements about the export. -/
def demoImage : Pix → Option ℚ := fun _ => some 0

/-- A concrete analysis boundary for closed statements about the export. -/
def demoRegion : Pix → Bool := fun _ => true

/-- C9 counterexample: two export calls that vary everything the caller can
set still submit the fixed file name `uhi_classes`; only the folder follows
the caller's choice.  The output file name cannot be set by the caller. -/
theorem export_filename_fixed_cex :
    (export_to_drive demoImage demoRegion "task-1" "FolderA").job.fileNamePrefix
      = "uhi_classes" ∧
    (export_to_drive demoImage demoRegion "task-2" "FolderB").job.fileNamePrefix
      = "uhi_classes" ∧
    (export_to_drive demoImage demoRegion "task-1" "FolderA").job.folder
      = "FolderA" ∧
    (export_to_drive demoImage demoRegion "task-2" "FolderB").job.folder
      = "FolderB" :=
  ⟨rfl, rfl, rfl, rfl⟩

/-- C9 (amended): the destination folder of the exported raster is
configurable by the caller (the `output_folder` parameter, default
`UrbanHeat`), while the output file name is fixed to `uhi_classes` and the
job description to `UHI_Classes_Landsat8_Export` for every call. -/
theorem export_folder_configurable_filename_fixed
    (uhiClasses : Pix → Option ℚ) (analysisBoundary : Pix → Bool)
    (taskId output_folder : String) :
    (export_to_drive uhiClasses analysisBoundary taskId
        output_folder).job.folder = output_folder ∧
    (export_to_drive uhiClasses analysisBoundary taskId
        output_folder).job.fileNamePrefix = "uhi_classes" ∧
    (export_to_drive uhiClasses analysisBoundary taskId
        output_folder).job.description = "UHI_Classes_Landsat8_Export" :=
  ⟨rfl, rfl, rfl⟩

/-- C10: the image submitted to the export job is the classified raster
clipped to the analysis boundary — no value outside the boundary, the
original values inside it — and the classified raster handle itself is not
altered: the driver's later visualization call receives the same value. -/
theorem export_clips_to_boundary (uhiClasses : Pix → Option ℚ)
    (analysisBoundary : Pix → Bool) (taskId output_folder : String)
    (p : Pix) :
    (export_to_drive uhiClasses analysisBoundary taskId
        output_folder).job.image = eeClip uhiClasses analysisBoundary ∧
    (analysisBoundary p = false →
      (export_to_drive uhiClasses analysisBoundary taskId
          output_folder).job.image p = none) ∧
    (analysisBoundary p = true →
      (export_to_drive uhiClasses analysisBoundary taskId
          output_folder).job.image p = uhiClasses p) ∧
    (main_handle_flow uhiClasses analysisBoundary taskId).2 = uhiClasses := by
  refine ⟨rfl, fun h => ?_, fun h => ?_, rfl⟩
  · show eeClip uhiClasses analysisBoundary p = none
    simp [eeClip, h]
  · show eeClip uhiClasses analysisBoundary p = uhiClasses p
    simp [eeClip, h]

end UrbanHeatIsland
